import Mathlib

/-!
Shallow embedding of the order-lifecycle engine of `src/index.js`
(an Express app brokering prepaid-product purchases through the
AtlanticH2H provider).

JS values stored in the opaque provider payloads (`depositDetails`,
`transactionDetails`) are modelled by `JsonVal`; objects by association
lists.  JS number arithmetic in the pricing code is modelled over `ℚ`
(at the inputs exercised here the IEEE-754 computation is exact and
agrees with the rational one).  Each HTTP handler becomes a pure
function of the loaded order / store, the provider's responses, and the
current time; the store write (`order.save()`) is reported in the
`saved` field and the provider calls issued are collected in `calls`.
-/

namespace Website

/-- A JSON scalar value as found in provider payloads. -/
inductive JsonVal where
  | str (s : String)
  | num (n : Int)
  | bool (b : Bool)
deriving DecidableEq, Repr

/-- A JS object: an association list of fields, in key order. -/
abbrev Obj := List (String × JsonVal)

/-- Field lookup, `o.k` in JS (first binding wins, JSON keys are unique). -/
def Obj.getVal (o : Obj) (k : String) : Option JsonVal :=
  (o.find? (fun p => p.1 == k)).map (fun p => p.2)

/-- Field access coerced to a string, as mongoose casts values stored in
`String` schema fields. -/
def Obj.getStr (o : Obj) (k : String) : Option String :=
  match Obj.getVal o k with
  | some (JsonVal.str s) => some s
  | some (JsonVal.num n) => some (toString n)
  | some (JsonVal.bool b) => some (if b then "true" else "false")
  | none => none

/-- JS truthiness of a scalar: `''`, `0` and `false` are falsy. -/
def JsonVal.truthy : JsonVal → Bool
  | JsonVal.str s => s ≠ ""
  | JsonVal.num n => n ≠ 0
  | JsonVal.bool b => b

/-- JS truthiness of an optional string field (`undefined` and `''` falsy). -/
def optStrTruthy : Option String → Bool
  | none => false
  | some s => s ≠ ""

/-- `String.prototype.toUpperCase()` on the ASCII statuses the handlers
compare: upper-case each character. -/
def jsToUpper (s : String) : String := String.mk (s.data.map Char.toUpper)

/-- `String.prototype.toLowerCase()`, likewise character-wise. -/
def jsToLower (s : String) : String := String.mk (s.data.map Char.toLower)

/-- JS object spread merge `{...o, ...n}`: keys of `o` keep their position
(with `n`'s value when `n` also has the key), keys only in `n` follow in
`n`'s order. -/
def jsMerge (o n : Obj) : Obj :=
  o.map (fun p =>
    match Obj.getVal n p.1 with
    | some v => (p.1, v)
    | none => p)
  ++ n.filter (fun q => (Obj.getVal o q.1).isNone)

/-- JS property assignment `o.k = v`: overwrite in place when the key
exists, otherwise append the new key. -/
def Obj.setField (o : Obj) (k : String) (v : JsonVal) : Obj :=
  if (Obj.getVal o k).isSome then
    o.map (fun p => if p.1 == k then (p.1, v) else p)
  else o ++ [(k, v)]

/-- The shape of every AtlanticH2H response the handlers read:
a `status` flag, an optional `data` object and an optional `message`. -/
structure AtlResp where
  status : Bool
  data : Option Obj
  message : Option String
deriving DecidableEq, Repr

/-- One provider call, named after its endpoint. -/
inductive CallKind where
  | depositCreate
  | depositStatus
  | depositCancel
  | txCreate
  | txStatus
deriving DecidableEq, Repr

/-- The persistent `Order` document (the mongoose `orderSchema`).
Timestamps are abstract `Nat` instants; optional schema fields are
`Option`s. -/
structure Order where
  orderId : String
  productId : String
  productName : String
  productPrice : ℚ
  providerName : String
  productImgUrl : String
  targetId : String
  paymentMethodCode : String
  paymentMethodName : String
  adminFeePaymentMethod : ℚ
  adminFeeGlobal : ℚ
  totalAdminFee : ℚ
  totalAmountToPayForDeposit : Int
  status : String
  atlanticDepositId : Option String
  depositReffId : Option String
  depositDetails : Option Obj
  atlanticTransactionId : Option String
  transactionReffId : Option String
  transactionDetails : Option Obj
  createdAt : Nat
  updatedAt : Nat
deriving DecidableEq, Repr

/-- The provider responses available to one reconcile call: what
`fetchAtlanticAPI` would produce on each endpoint (`Except.error` is a
thrown transport error, carrying the error message). -/
structure ProviderEnv where
  depositStatus : Except String AtlResp
  txCreate : Except String AtlResp
  txStatus : Except String AtlResp

instance {ε α : Type} [DecidableEq ε] [DecidableEq α] : DecidableEq (Except ε α)
  | Except.error x, Except.error y =>
    match decEq x y with
    | isTrue h => isTrue (h ▸ rfl)
    | isFalse h => isFalse (fun c => h (Except.error.inj c))
  | Except.error _, Except.ok _ => isFalse (fun c => Except.noConfusion c)
  | Except.ok _, Except.error _ => isFalse (fun c => Except.noConfusion c)
  | Except.ok x, Except.ok y =>
    match decEq x y with
    | isTrue h => isTrue (h ▸ rfl)
    | isFalse h => isFalse (fun c => h (Except.ok.inj c))

/-- Outcome of a reconcile call: the HTTP-level result (`Except.error`
is the 500 response), the order written by `order.save()` when a save
happened, and the provider calls issued, in order. -/
structure ReconcileResult where
  result : Except String Order
  saved : Option Order
  calls : List CallKind
deriving DecidableEq, Repr

/-- The order returned in the 200 response body, when there is one. -/
def resOrder (r : ReconcileResult) : Option Order :=
  match r.result with
  | Except.ok o => some o
  | Except.error _ => none

/-- Whether an `Except` result is the error case. -/
def isErr {ε α : Type} : Except ε α → Bool
  | Except.error _ => true
  | Except.ok _ => false

/-- The `transaksi/create` call plus its local `try/catch`
(lines 277-296 and 335-353 of `src/index.js`), applied to an order whose
`transactionReffId` has already been set.  `ulang` selects the
retry-branch message strings.  A thrown transport error — and equally the
`TypeError` thrown by `.toUpperCase()` on a truthy non-string `status` —
is caught and recorded as `TRANSACTION_CREATION_ERROR`. -/
def applyTxCreate (resp : Except String AtlResp) (ulang : Bool) (o : Order) : Order :=
  match resp with
  | Except.error msg =>
      { o with status := "TRANSACTION_CREATION_ERROR",
               transactionDetails := some [("error", JsonVal.str
                 ((if ulang then "Internal error (ulang): " else "Internal error: ") ++ msg))] }
  | Except.ok r =>
      match r.data with
      | some d =>
        if r.status then
          let o1 := { o with atlanticTransactionId := Obj.getStr d "id",
                             transactionDetails := some d }
          match Obj.getVal d "status" with
          | some (JsonVal.str s) =>
              let st := if s = "" then "ORDER_PROCESSING" else jsToUpper s
              { o1 with status := if st = "PENDING" then "ORDER_PROCESSING" else st }
          | some v =>
              if v.truthy then
                { o1 with status := "TRANSACTION_CREATION_ERROR",
                          transactionDetails := some [("error", JsonVal.str
                            ((if ulang then "Internal error (ulang): " else "Internal error: ") ++
                              "TypeError"))] }
              else { o1 with status := "ORDER_PROCESSING" }
          | none => { o1 with status := "ORDER_PROCESSING" }
        else
          { o with status := "TRANSACTION_CREATION_FAILED",
                   transactionDetails := some [("error", JsonVal.str
                     (r.message.getD
                       (if ulang then "Gagal membuat transaksi (ulang)" else "Gagal membuat transaksi")))] }
      | none =>
          { o with status := "TRANSACTION_CREATION_FAILED",
                   transactionDetails := some [("error", JsonVal.str
                     (r.message.getD
                       (if ulang then "Gagal membuat transaksi (ulang)" else "Gagal membuat transaksi")))] }

/-- The `/api/order-status/:orderId` handler body after the order has
been loaded (lines 264-363 of `src/index.js`): the reconciliation state
machine.  An uncaught throw — a transport error on a status fetch, or
the `TypeError` from `.toUpperCase()` when the response's `data.status`
is not a string — reaches the outer `catch` and becomes the 500
response, with nothing saved. -/
def reconcile (env : ProviderEnv) (now : Nat) (o : Order) : ReconcileResult :=
  if o.status = "PENDING_PAYMENT" ∨ o.status = "PAYMENT_PROCESSING" then
    match env.depositStatus with
    | Except.error msg =>
        ⟨Except.error ("Internal server error: " ++ msg), none, [CallKind.depositStatus]⟩
    | Except.ok r =>
        match r.data with
        | some d =>
          if r.status then
            match Obj.getVal d "status" with
            | some (JsonVal.str s) =>
                let atl := jsToUpper s
                let o1 := { o with updatedAt := now,
                                   depositDetails := some (jsMerge (o.depositDetails.getD []) d) }
                if atl = "SUCCESS" then
                  let o2 := applyTxCreate env.txCreate false
                    { o1 with status := "PAYMENT_SUCCESSFUL_PROCESSING_ORDER",
                              transactionReffId := some ("TRX-" ++ o.orderId) }
                  ⟨Except.ok o2, some o2, [CallKind.depositStatus, CallKind.txCreate]⟩
                else if atl = "EXPIRED" ∨ atl = "FAILED" ∨ atl = "CANCEL" then
                  let o2 := { o1 with status := "PAYMENT_" ++ atl }
                  ⟨Except.ok o2, some o2, [CallKind.depositStatus]⟩
                else if atl = "PENDING" then
                  let o2 := { o1 with status := "PENDING_PAYMENT" }
                  ⟨Except.ok o2, some o2, [CallKind.depositStatus]⟩
                else
                  let o2 := { o1 with status := "PAYMENT_PROCESSING" }
                  ⟨Except.ok o2, some o2, [CallKind.depositStatus]⟩
            | _ =>
                ⟨Except.error "Internal server error: TypeError", none, [CallKind.depositStatus]⟩
          else ⟨Except.ok o, none, [CallKind.depositStatus]⟩
        | none => ⟨Except.ok o, none, [CallKind.depositStatus]⟩
  else if o.status = "ORDER_PROCESSING" ∨ o.status = "PAYMENT_SUCCESSFUL_PROCESSING_ORDER" ∨
          o.status = "TRANSACTION_CREATION_FAILED" then
    if optStrTruthy o.atlanticTransactionId then
      match env.txStatus with
      | Except.error msg =>
          ⟨Except.error ("Internal server error: " ++ msg), none, [CallKind.txStatus]⟩
      | Except.ok r =>
          let o1 := { o with updatedAt := now }
          match r.data with
          | some d =>
            if r.status then
              match Obj.getVal d "status" with
              | some (JsonVal.str s) =>
                  let atl := jsToUpper s
                  let o2 := { o1 with
                    transactionDetails := some (jsMerge (o1.transactionDetails.getD []) d),
                    status :=
                      if atl = "SUCCESS" then "ORDER_COMPLETED"
                      else if atl = "FAILED" ∨ atl = "ERROR" then "ORDER_FAILED"
                      else if atl = "PENDING" then "ORDER_PROCESSING"
                      else atl }
                  ⟨Except.ok o2, some o2, [CallKind.txStatus]⟩
              | _ =>
                  ⟨Except.error "Internal server error: TypeError", none, [CallKind.txStatus]⟩
            else ⟨Except.ok o1, some o1, [CallKind.txStatus]⟩
          | none => ⟨Except.ok o1, some o1, [CallKind.txStatus]⟩
    else if o.status = "PAYMENT_SUCCESSFUL_PROCESSING_ORDER" then
      let o2 := applyTxCreate env.txCreate true
        { o with updatedAt := now, transactionReffId := some ("TRX-" ++ o.orderId) }
      ⟨Except.ok o2, some o2, [CallKind.txCreate]⟩
    else ⟨Except.ok o, none, []⟩
  else ⟨Except.ok o, none, []⟩

/-- A product entry of `productsCache` (the fields the handlers read).
`price` is the already-parsed numeric price. -/
structure Product where
  code : String
  name : String
  price : ℚ
  provider : String
  category : String
  img_url : String
deriving DecidableEq, Repr

/-- A payment-method entry of `paymentMethodsCache` (fields the
create-order handler reads); `fee` and `fee_persen` are the parsed
numbers (`parseFloat(x) || 0`). -/
structure PaymentMethod where
  metode : String
  name : String
  type : String
  fee : ℚ
  fee_persen : ℚ
deriving DecidableEq, Repr

/-- `feeFromPaymentMethod = paymentMethodFee + basePrice * (fee_persen / 100)`
(line 191 of `src/index.js`). -/
def feeFromPaymentMethod (basePrice fee feePercent : ℚ) : ℚ :=
  fee + basePrice * (feePercent / 100)

/-- `additionalAdminFeePercentGlobal = 2` (line 189). -/
def additionalAdminFeePercentGlobal : ℚ := 2

/-- `globalAdminFee = baseProductPrice * (2 / 100)` (line 192). -/
def globalAdminFee (basePrice : ℚ) : ℚ :=
  basePrice * (additionalAdminFeePercentGlobal / 100)

/-- `totalAdminFee = feeFromPaymentMethod + globalAdminFee` (line 193). -/
def totalAdminFee (basePrice fee feePercent : ℚ) : ℚ :=
  feeFromPaymentMethod basePrice fee feePercent + globalAdminFee basePrice

/-- `totalAmountForDeposit = baseProductPrice + totalAdminFee` (line 194). -/
def totalAmountForDeposit (basePrice fee feePercent : ℚ) : ℚ :=
  basePrice + totalAdminFee basePrice fee feePercent

/-- `Math.ceil(totalAmountForDeposit)`: the deposit nominal and the
order's `totalAmountToPayForDeposit` (lines 199 and 223). -/
def totalAmountDue (basePrice fee feePercent : ℚ) : Int :=
  Int.ceil (totalAmountForDeposit basePrice fee feePercent)

/-- The request body of `/api/create-order`; a missing field is the
empty string (both are falsy in the handler's completeness check). -/
structure CreateRequest where
  productId : String
  targetId : String
  paymentMethodCode : String
  providerName : String
deriving DecidableEq, Repr

/-- Outcome of a create-order call: an error response `(httpStatus,
message)` or the created order, the resulting store contents, and the
provider calls issued. -/
structure CreateResult where
  result : Except (Nat × String) Order
  store : List Order
  calls : List CallKind
deriving DecidableEq, Repr

/-- `Order.findOne({orderId})` over the modelled store. -/
def findById (store : List Order) (oid : String) : Option Order :=
  store.find? (fun o => o.orderId == oid)

/-- The `/api/create-order` handler (lines 166-248 of `src/index.js`).
`orderIdInternal` stands for the freshly generated order id and `now`
for the wall clock; `depositResp` is what the `deposit/create` call
would produce. -/
def createOrder (products : List Product) (pms : List PaymentMethod)
    (req : CreateRequest) (orderIdInternal : String)
    (depositResp : Except String AtlResp) (store : List Order) (now : Nat) :
    CreateResult :=
  if req.productId = "" ∨ req.targetId = "" ∨ req.paymentMethodCode = "" ∨
     req.providerName = "" then
    ⟨Except.error (400, "Data tidak lengkap."), store, []⟩
  else
    match products.find? (fun p =>
        p.code == req.productId &&
        (jsToLower p.provider == jsToLower req.providerName ||
         jsToLower p.category == jsToLower req.providerName)) with
    | none => ⟨Except.error (404, "Produk tidak ditemukan."), store, []⟩
    | some selectedProduct =>
      match pms.find? (fun pm => pm.metode == req.paymentMethodCode) with
      | none => ⟨Except.error (404, "Metode pembayaran tidak ditemukan."), store, []⟩
      | some selectedPaymentMethod =>
        let depositReffId := "DEP-" ++ orderIdInternal
        let base := selectedProduct.price
        match depositResp with
        | Except.error msg =>
            ⟨Except.error (500, "Gagal memproses pesanan: " ++ msg), store,
             [CallKind.depositCreate]⟩
        | Except.ok r =>
          match r.data with
          | none =>
              ⟨Except.error (500, r.message.getD "Gagal membuat deposit."), store,
               [CallKind.depositCreate]⟩
          | some d =>
            if r.status then
              let newOrder : Order :=
                { orderId := orderIdInternal,
                  productId := req.productId,
                  productName := selectedProduct.name,
                  productPrice := base,
                  providerName := selectedProduct.provider,
                  productImgUrl := selectedProduct.img_url,
                  targetId := req.targetId,
                  paymentMethodCode := req.paymentMethodCode,
                  paymentMethodName := selectedPaymentMethod.name,
                  adminFeePaymentMethod :=
                    feeFromPaymentMethod base selectedPaymentMethod.fee
                      selectedPaymentMethod.fee_persen,
                  adminFeeGlobal := globalAdminFee base,
                  totalAdminFee :=
                    totalAdminFee base selectedPaymentMethod.fee
                      selectedPaymentMethod.fee_persen,
                  totalAmountToPayForDeposit :=
                    totalAmountDue base selectedPaymentMethod.fee
                      selectedPaymentMethod.fee_persen,
                  status := "PENDING_PAYMENT",
                  atlanticDepositId := Obj.getStr d "id",
                  depositReffId := some depositReffId,
                  depositDetails := some d,
                  atlanticTransactionId := none,
                  transactionReffId := none,
                  transactionDetails := none,
                  createdAt := now,
                  updatedAt := now }
              ⟨Except.ok newOrder, store ++ [newOrder], [CallKind.depositCreate]⟩
            else
              ⟨Except.error (500, r.message.getD "Gagal membuat deposit."), store,
               [CallKind.depositCreate]⟩

/-- Outcome of a cancel-order call, shaped like `CreateResult` plus the
`saved` write. -/
structure CancelResult where
  result : Except (Nat × String) Order
  saved : Option Order
  calls : List CallKind
deriving DecidableEq, Repr

/-- The `/api/cancel-order/:orderId` handler (lines 366-405 of
`src/index.js`).  `cancelResp` is what the `deposit/cancel` call would
produce; it is only consulted when the preconditions pass.  The
`TypeError` thrown by `.toLowerCase()` on a truthy non-string nested
status reaches the outer `catch` and becomes the catch-branch 500. -/
def cancelOrder (store : List Order) (orderId : String)
    (cancelResp : Except String AtlResp) (now : Nat) : CancelResult :=
  match findById store orderId with
  | none => ⟨Except.error (404, "Pesanan tidak ditemukan."), none, []⟩
  | some o =>
    if ¬ optStrTruthy o.atlanticDepositId then
      ⟨Except.error (400, "Deposit ID tidak ditemukan."), none, []⟩
    else if o.status ≠ "PENDING_PAYMENT" ∧ o.status ≠ "PAYMENT_PROCESSING" then
      ⟨Except.error (400, "Pesanan status " ++ o.status ++ " tidak bisa dibatalkan."),
       none, []⟩
    else
      match cancelResp with
      | Except.error msg =>
          ⟨Except.error (500, "Gagal membatalkan pesanan: " ++ msg), none,
           [CallKind.depositCancel]⟩
      | Except.ok r =>
        match r.data with
        | some d =>
          if r.status then
            match Obj.getVal d "status" with
            | some (JsonVal.str s) =>
              if s ≠ "" ∧ jsToLower s = "cancel" then
                let o1 := { o with
                  status := "PAYMENT_CANCELLED",
                  updatedAt := now,
                  depositDetails :=
                    some (Obj.setField (o.depositDetails.getD []) "status"
                      (JsonVal.str "cancel")) }
                ⟨Except.ok o1, some o1, [CallKind.depositCancel]⟩
              else
                ⟨Except.error (500, r.message.getD "Gagal membatalkan deposit di AtlanticH2H."),
                 none, [CallKind.depositCancel]⟩
            | some v =>
              if v.truthy then
                ⟨Except.error (500, "Gagal membatalkan pesanan: TypeError"), none,
                 [CallKind.depositCancel]⟩
              else
                ⟨Except.error (500, r.message.getD "Gagal membatalkan deposit di AtlanticH2H."),
                 none, [CallKind.depositCancel]⟩
            | none =>
              ⟨Except.error (500, r.message.getD "Gagal membatalkan deposit di AtlanticH2H."),
               none, [CallKind.depositCancel]⟩
          else
            ⟨Except.error (500, r.message.getD "Gagal membatalkan deposit di AtlanticH2H."),
             none, [CallKind.depositCancel]⟩
        | none =>
          ⟨Except.error (500, r.message.getD "Gagal membatalkan deposit di AtlanticH2H."),
           none, [CallKind.depositCancel]⟩

/-! ### Sample data for concrete instantiations -/

/-- A representative stored order, as persisted by a successful
create-order call (pricing fields from the worked example). -/
def sampleOrder : Order :=
  { orderId := "ORD-1-ABC"
    productId := "P1"
    productName := "Prod"
    productPrice := 10000
    providerName := "Prov"
    productImgUrl := ""
    targetId := "081234"
    paymentMethodCode := "BCA"
    paymentMethodName := "BCA VA"
    adminFeePaymentMethod := 650
    adminFeeGlobal := 200
    totalAdminFee := 850
    totalAmountToPayForDeposit := 10850
    status := "PENDING_PAYMENT"
    atlanticDepositId := some "D1"
    depositReffId := some "DEP-ORD-1-ABC"
    depositDetails := some [("id", JsonVal.str "D1"), ("status", JsonVal.str "pending")]
    atlanticTransactionId := none
    transactionReffId := none
    transactionDetails := none
    createdAt := 1
    updatedAt := 1 }

/-- A provider environment where the deposit has been paid and the
transaction is created successfully with status `pending`. -/
def envHappy : ProviderEnv :=
  { depositStatus := Except.ok
      { status := true, data := some [("status", JsonVal.str "success")], message := none }
    txCreate := Except.ok
      { status := true,
        data := some [("id", JsonVal.str "T1"), ("status", JsonVal.str "pending")],
        message := none }
    txStatus := Except.error "unused" }

/-! ### Claims -/

/-- C2: `createOrder` computes `paymentMethodFee = flatFee +
basePrice*(feePercent/100)`, `globalAdminFee = basePrice*(2/100)`,
`totalAdminFee = paymentMethodFee + globalAdminFee` and
`totalAmountDue = ceil(basePrice + totalAdminFee)`; the computation is
deterministic, and for basePrice=10000, flatFee=500, feePercent=1.5 it
yields 650, 200, 850 and 10850. -/
theorem C2_pricing_formula_and_example :
    (∀ basePrice fee feePercent : ℚ,
       feeFromPaymentMethod basePrice fee feePercent = fee + basePrice * (feePercent / 100)) ∧
    (∀ basePrice : ℚ, globalAdminFee basePrice = basePrice * (2 / 100)) ∧
    (∀ basePrice fee feePercent : ℚ,
       totalAdminFee basePrice fee feePercent =
         feeFromPaymentMethod basePrice fee feePercent + globalAdminFee basePrice) ∧
    (∀ basePrice fee feePercent : ℚ,
       totalAmountDue basePrice fee feePercent =
         Int.ceil (basePrice + totalAdminFee basePrice fee feePercent)) ∧
    (∀ basePrice fee feePercent : ℚ,
       totalAmountDue basePrice fee feePercent = totalAmountDue basePrice fee feePercent) ∧
    feeFromPaymentMethod 10000 500 (3 / 2) = 650 ∧
    globalAdminFee 10000 = 200 ∧
    totalAdminFee 10000 500 (3 / 2) = 850 ∧
    totalAmountDue 10000 500 (3 / 2) = 10850 := by
  refine ⟨fun _ _ _ => rfl, fun _ => rfl, fun _ _ _ => rfl, fun _ _ _ => rfl,
    fun _ _ _ => rfl, ?_, ?_, ?_, ?_⟩
  · norm_num [feeFromPaymentMethod]
  · norm_num [globalAdminFee, additionalAdminFeePercentGlobal]
  · norm_num [totalAdminFee, feeFromPaymentMethod, globalAdminFee,
      additionalAdminFeePercentGlobal]
  · norm_num [totalAmountDue, totalAmountForDeposit, totalAdminFee, feeFromPaymentMethod,
      globalAdminFee, additionalAdminFeePercentGlobal]

/-- C5: `reconcile` on an order in a terminal state (`ORDER_COMPLETED`,
`ORDER_FAILED`, `PAYMENT_EXPIRED`, `PAYMENT_FAILED`, `PAYMENT_CANCEL`,
`PAYMENT_CANCELLED`) makes no provider call, writes nothing to the
store, and returns the stored order unchanged. -/
theorem C5_terminal_state_noop (env : ProviderEnv) (now : Nat) (o : Order)
    (h : o.status = "ORDER_COMPLETED" ∨ o.status = "ORDER_FAILED" ∨
         o.status = "PAYMENT_EXPIRED" ∨ o.status = "PAYMENT_FAILED" ∨
         o.status = "PAYMENT_CANCEL" ∨ o.status = "PAYMENT_CANCELLED") :
    reconcile env now o = ⟨Except.ok o, none, []⟩ := by
  rcases h with h|h|h|h|h|h <;> simp [reconcile, h]

/-- Witness for C5 at a concrete completed order and environment. -/
theorem C5_terminal_state_noop_witness :
    reconcile envHappy 9 { sampleOrder with status := "ORDER_COMPLETED" } =
      ⟨Except.ok { sampleOrder with status := "ORDER_COMPLETED" }, none, []⟩ :=
  C5_terminal_state_noop envHappy 9 { sampleOrder with status := "ORDER_COMPLETED" }
    (Or.inl rfl)

/-- A provider environment where every call throws a transport error. -/
def envDown : ProviderEnv :=
  { depositStatus := Except.error "ECONNREFUSED"
    txCreate := Except.error "ECONNREFUSED"
    txStatus := Except.error "ECONNREFUSED" }

/-- C10: for every stored order whose status is outside
{PENDING_PAYMENT, PAYMENT_PROCESSING, ORDER_PROCESSING,
PAYMENT_SUCCESSFUL_PROCESSING_ORDER, TRANSACTION_CREATION_FAILED} — in
particular TRANSACTION_CREATION_ERROR and any pass-through provider
status — `reconcile` makes no provider call and persists no change, so
such statuses are de facto terminal. -/
theorem C10_unhandled_status_is_terminal (env : ProviderEnv) (now : Nat) (o : Order)
    (h1 : o.status ≠ "PENDING_PAYMENT") (h2 : o.status ≠ "PAYMENT_PROCESSING")
    (h3 : o.status ≠ "ORDER_PROCESSING")
    (h4 : o.status ≠ "PAYMENT_SUCCESSFUL_PROCESSING_ORDER")
    (h5 : o.status ≠ "TRANSACTION_CREATION_FAILED") :
    reconcile env now o = ⟨Except.ok o, none, []⟩ := by
  simp [reconcile, h1, h2, h3, h4, h5]

/-- Witness for C10 at a concrete `TRANSACTION_CREATION_ERROR` order. -/
theorem C10_unhandled_status_is_terminal_witness :
    reconcile envHappy 9 { sampleOrder with status := "TRANSACTION_CREATION_ERROR" } =
      ⟨Except.ok { sampleOrder with status := "TRANSACTION_CREATION_ERROR" }, none, []⟩ :=
  C10_unhandled_status_is_terminal envHappy 9
    { sampleOrder with status := "TRANSACTION_CREATION_ERROR" }
    (by decide) (by decide) (by decide) (by decide) (by decide)

/-- C7: a transport error thrown while fetching the deposit status or
the transaction status is not caught locally: `reconcile` returns the
500 server-error response, nothing is saved, and the stored order is
unchanged. -/
theorem C7_status_fetch_transport_error (env : ProviderEnv) (now : Nat) (o : Order) :
    ((o.status = "PENDING_PAYMENT" ∨ o.status = "PAYMENT_PROCESSING") →
      ∀ msg, env.depositStatus = Except.error msg →
      reconcile env now o =
        ⟨Except.error ("Internal server error: " ++ msg), none, [CallKind.depositStatus]⟩) ∧
    ((o.status = "ORDER_PROCESSING" ∨ o.status = "PAYMENT_SUCCESSFUL_PROCESSING_ORDER" ∨
      o.status = "TRANSACTION_CREATION_FAILED") →
      optStrTruthy o.atlanticTransactionId = true →
      ∀ msg, env.txStatus = Except.error msg →
      reconcile env now o =
        ⟨Except.error ("Internal server error: " ++ msg), none, [CallKind.txStatus]⟩) := by
  constructor
  · intro h msg hmsg
    rcases h with h | h <;> simp [reconcile, h, hmsg]
  · intro h htr msg hmsg
    rcases h with h | h | h <;> simp [reconcile, h, htr, hmsg]

/-- Witness for C7: a deposit-status transport error on a pending order
yields the 500 response with nothing saved. -/
theorem C7_status_fetch_transport_error_witness :
    reconcile envDown 3 sampleOrder =
      ⟨Except.error "Internal server error: ECONNREFUSED", none, [CallKind.depositStatus]⟩ :=
  (C7_status_fetch_transport_error envDown 3 sampleOrder).1 (Or.inl rfl) "ECONNREFUSED" rfl

/-- `applyTxCreate` only touches `status`, `atlanticTransactionId` and
`transactionDetails`; in particular `transactionReffId` survives. -/
theorem applyTxCreate_transactionReffId (resp : Except String AtlResp) (u : Bool)
    (o : Order) : (applyTxCreate resp u o).transactionReffId = o.transactionReffId := by
  rcases resp with msg | ⟨rs, rd, rm⟩
  · rfl
  · rcases rd with _ | d
    · rfl
    · rcases rs
      · rfl
      · rcases hv : Obj.getVal d "status" with _ | v
        · simp [applyTxCreate, hv]
        · rcases v with s | n | b <;> simp [applyTxCreate, hv] <;> split <;> rfl

/-- C1: on an order in `PENDING_PAYMENT`/`PAYMENT_PROCESSING`, when the
deposit-status call returns ok, `reconcile` maps the provider status
(upper-cased) to the next stored status: EXPIRED/FAILED/CANCEL →
`PAYMENT_<STATUS>`; PENDING → `PENDING_PAYMENT`; any other non-SUCCESS →
`PAYMENT_PROCESSING`; SUCCESS → `PAYMENT_SUCCESSFUL_PROCESSING_ORDER`
followed, in the same call, by a transaction-creation attempt whose
success with provider status PENDING yields `ORDER_PROCESSING`. -/
theorem C1_deposit_status_transitions (env : ProviderEnv) (now : Nat) (o : Order)
    (r : AtlResp) (d : Obj) (s : String)
    (hst : o.status = "PENDING_PAYMENT" ∨ o.status = "PAYMENT_PROCESSING")
    (hdep : env.depositStatus = Except.ok r)
    (hok : r.status = true) (hdata : r.data = some d)
    (hs : Obj.getVal d "status" = some (JsonVal.str s)) :
    ((jsToUpper s = "EXPIRED" ∨ jsToUpper s = "FAILED" ∨ jsToUpper s = "CANCEL") →
       (resOrder (reconcile env now o)).map Order.status = some ("PAYMENT_" ++ jsToUpper s) ∧
       (reconcile env now o).saved = resOrder (reconcile env now o)) ∧
    (jsToUpper s = "PENDING" →
       (resOrder (reconcile env now o)).map Order.status = some "PENDING_PAYMENT" ∧
       (reconcile env now o).saved = resOrder (reconcile env now o)) ∧
    (jsToUpper s ≠ "SUCCESS" → jsToUpper s ≠ "PENDING" → jsToUpper s ≠ "EXPIRED" →
     jsToUpper s ≠ "FAILED" → jsToUpper s ≠ "CANCEL" →
       (resOrder (reconcile env now o)).map Order.status = some "PAYMENT_PROCESSING" ∧
       (reconcile env now o).saved = resOrder (reconcile env now o)) ∧
    (jsToUpper s = "SUCCESS" →
       (reconcile env now o).calls = [CallKind.depositStatus, CallKind.txCreate] ∧
       (resOrder (reconcile env now o)).map Order.transactionReffId =
         some (some ("TRX-" ++ o.orderId)) ∧
       (∀ rt dt s2, env.txCreate = Except.ok rt → rt.status = true → rt.data = some dt →
          Obj.getVal dt "status" = some (JsonVal.str s2) → s2 ≠ "" →
          jsToUpper s2 = "PENDING" →
          (resOrder (reconcile env now o)).map Order.status = some "ORDER_PROCESSING" ∧
          (reconcile env now o).saved = resOrder (reconcile env now o))) := by
  refine ⟨?_, ?_, ?_, ?_⟩
  · intro hcase
    have hne : jsToUpper s ≠ "SUCCESS" := by
      rcases hcase with h | h | h <;> simp [h]
    rcases hcase with h | h | h <;>
      rcases hst with h2 | h2 <;>
        simp [reconcile, h2, hdep, hok, hdata, hs, h, resOrder]
  · intro hcase
    rcases hst with h2 | h2 <;>
      simp [reconcile, h2, hdep, hok, hdata, hs, hcase, resOrder]
  · intro hn1 hn2 hn3 hn4 hn5
    rcases hst with h2 | h2 <;>
      simp [reconcile, h2, hdep, hok, hdata, hs, hn1, hn2, hn3, hn4, hn5, resOrder]
  · intro hcase
    refine ⟨?_, ?_, ?_⟩
    · rcases hst with h2 | h2 <;>
        simp [reconcile, h2, hdep, hok, hdata, hs, hcase, resOrder]
    · rcases hst with h2 | h2 <;>
        simp [reconcile, h2, hdep, hok, hdata, hs, hcase, resOrder,
          applyTxCreate_transactionReffId]
    · intro rt dt s2 hrt hrtok hrtdata hdt hs2ne hs2up
      rcases hst with h2 | h2 <;>
        simp [reconcile, h2, hdep, hok, hdata, hs, hcase, resOrder,
          applyTxCreate, hrt, hrtok, hrtdata, hdt, hs2ne, hs2up]

/-- Witness for C1 at the happy path: a pending order whose deposit
turned SUCCESS and whose transaction creation comes back PENDING ends
the call at `ORDER_PROCESSING`. -/
theorem C1_deposit_status_transitions_witness :
    (resOrder (reconcile envHappy 9 sampleOrder)).map Order.status =
      some "ORDER_PROCESSING" ∧
    (reconcile envHappy 9 sampleOrder).saved = resOrder (reconcile envHappy 9 sampleOrder) :=
  ((C1_deposit_status_transitions envHappy 9 sampleOrder
      { status := true, data := some [("status", JsonVal.str "success")], message := none }
      [("status", JsonVal.str "success")] "success"
      (Or.inl rfl) rfl rfl rfl rfl).2.2.2 (by decide)).2.2
    { status := true,
      data := some [("id", JsonVal.str "T1"), ("status", JsonVal.str "pending")],
      message := none }
    [("id", JsonVal.str "T1"), ("status", JsonVal.str "pending")] "pending"
    rfl rfl rfl (by decide) (by decide) (by decide)

/-- A catalog product matching `sampleOrder`. -/
def sampleProduct : Product :=
  { code := "P1", name := "Prod", price := 10000, provider := "Prov",
    category := "Games", img_url := "" }

/-- A payment method from the worked pricing example. -/
def samplePaymentMethod : PaymentMethod :=
  { metode := "BCA", name := "BCA VA", type := "va", fee := 500, fee_persen := 3 / 2 }

/-- A complete create-order request for the sample catalog. -/
def sampleRequest : CreateRequest :=
  { productId := "P1", targetId := "081234", paymentMethodCode := "BCA",
    providerName := "prov" }

/-- A business-level deposit-creation failure response. -/
def respDepositFail : Except String AtlResp :=
  Except.ok { status := false, data := none, message := some "Saldo tidak cukup" }

/-- C3: order creation is all-or-nothing — if the deposit-opening call
fails (transport error, or business-level `status=false` / missing
data), no Order record is persisted for the attempt: the store is
unchanged, `findById` on the generated order id still returns none, and
an error response is returned. -/
theorem C3_create_all_or_nothing (products : List Product) (pms : List PaymentMethod)
    (req : CreateRequest) (oid : String) (resp : Except String AtlResp)
    (store : List Order) (now : Nat)
    (hfail : (∃ m, resp = Except.error m) ∨
             (∃ r, resp = Except.ok r ∧ (r.status = false ∨ r.data = none)))
    (hfresh : findById store oid = none) :
    (createOrder products pms req oid resp store now).store = store ∧
    findById (createOrder products pms req oid resp store now).store oid = none ∧
    isErr (createOrder products pms req oid resp store now).result = true := by
  have key : (createOrder products pms req oid resp store now).store = store ∧
      isErr (createOrder products pms req oid resp store now).result = true := by
    unfold createOrder
    rcases hfail with ⟨m, hm⟩ | ⟨r, hr, hcase⟩
    · subst hm
      repeat' split
      all_goals first
        | exact ⟨rfl, rfl⟩
        | (exfalso; rename_i heqok x d heqd hst; exact Except.noConfusion heqok)
    · subst hr
      obtain ⟨rs, rd, rm⟩ := r
      rcases hcase with hs | hd
      · dsimp only at hs
        subst hs
        repeat' split
        all_goals first
          | exact ⟨rfl, rfl⟩
          | (exfalso; rename_i heqok x d heqd hst;
             obtain h9 := Except.ok.inj heqok; subst h9; simp_all)
      · dsimp only at hd
        subst hd
        repeat' split
        all_goals first
          | exact ⟨rfl, rfl⟩
          | (exfalso; rename_i heqok x d heqd hst;
             obtain h9 := Except.ok.inj heqok; subst h9; simp_all)
  refine ⟨key.1, ?_, key.2⟩
  rw [key.1]
  exact hfresh

/-- Witness for C3: a business-level deposit failure on an empty store
leaves the store empty and returns an error. -/
theorem C3_create_all_or_nothing_witness :
    (createOrder [sampleProduct] [samplePaymentMethod] sampleRequest "ORD-1-ABC"
        respDepositFail [] 5).store = [] ∧
    findById (createOrder [sampleProduct] [samplePaymentMethod] sampleRequest "ORD-1-ABC"
        respDepositFail [] 5).store "ORD-1-ABC" = none ∧
    isErr (createOrder [sampleProduct] [samplePaymentMethod] sampleRequest "ORD-1-ABC"
        respDepositFail [] 5).result = true :=
  C3_create_all_or_nothing [sampleProduct] [samplePaymentMethod] sampleRequest "ORD-1-ABC"
    respDepositFail [] 5
    (Or.inr ⟨{ status := false, data := none, message := some "Saldo tidak cukup" },
      rfl, Or.inl rfl⟩)
    rfl

/-- The success condition of the cancel handler (line 388 of
`src/index.js`): response status true AND a nested data status that is a
truthy string whose lower-casing equals "cancel" (a truthy non-string
nested status throws before the comparison and is not a success). -/
def cancelOkResp (resp : Except String AtlResp) : Bool :=
  match resp with
  | Except.error _ => false
  | Except.ok r =>
      r.status &&
      (match r.data with
       | some d =>
         (match Obj.getVal d "status" with
          | some (JsonVal.str s) => decide (s ≠ "") && (jsToLower s == "cancel")
          | some _ => false
          | none => false)
       | none => false)

/-- C6: `cancel(orderId)` rejects precondition failures (order absent,
no truthy provider deposit id, status outside {PENDING_PAYMENT,
PAYMENT_PROCESSING}) without contacting the provider; it modifies the
order only when the provider cancel response has status true and its
nested data status case-insensitively equals "cancel" — then the status
becomes PAYMENT_CANCELLED and the deposit-details status field is forced
to "cancel" (the object created if absent); on any other gateway outcome
nothing is saved and an error is surfaced. -/
theorem C6_cancel_semantics (store : List Order) (oid : String)
    (resp : Except String AtlResp) (now : Nat) :
    (findById store oid = none →
      cancelOrder store oid resp now =
        ⟨Except.error (404, "Pesanan tidak ditemukan."), none, []⟩) ∧
    (∀ o, findById store oid = some o → optStrTruthy o.atlanticDepositId = false →
      cancelOrder store oid resp now =
        ⟨Except.error (400, "Deposit ID tidak ditemukan."), none, []⟩) ∧
    (∀ o, findById store oid = some o → optStrTruthy o.atlanticDepositId = true →
      o.status ≠ "PENDING_PAYMENT" → o.status ≠ "PAYMENT_PROCESSING" →
      cancelOrder store oid resp now =
        ⟨Except.error (400, "Pesanan status " ++ o.status ++ " tidak bisa dibatalkan."),
         none, []⟩) ∧
    (∀ o r d s, findById store oid = some o → optStrTruthy o.atlanticDepositId = true →
      (o.status = "PENDING_PAYMENT" ∨ o.status = "PAYMENT_PROCESSING") →
      resp = Except.ok r → r.status = true → r.data = some d →
      Obj.getVal d "status" = some (JsonVal.str s) → s ≠ "" → jsToLower s = "cancel" →
      cancelOrder store oid resp now =
        ⟨Except.ok { o with
            status := "PAYMENT_CANCELLED",
            updatedAt := now,
            depositDetails := some (Obj.setField (o.depositDetails.getD []) "status"
              (JsonVal.str "cancel")) },
         some { o with
            status := "PAYMENT_CANCELLED",
            updatedAt := now,
            depositDetails := some (Obj.setField (o.depositDetails.getD []) "status"
              (JsonVal.str "cancel")) },
         [CallKind.depositCancel]⟩) ∧
    (∀ o, findById store oid = some o → optStrTruthy o.atlanticDepositId = true →
      (o.status = "PENDING_PAYMENT" ∨ o.status = "PAYMENT_PROCESSING") →
      cancelOkResp resp = false →
      (cancelOrder store oid resp now).saved = none ∧
      isErr (cancelOrder store oid resp now).result = true ∧
      (cancelOrder store oid resp now).calls = [CallKind.depositCancel]) := by
  refine ⟨?_, ?_, ?_, ?_, ?_⟩
  · intro hnone
    simp [cancelOrder, hnone]
  · intro o hfind hdep
    simp [cancelOrder, hfind, hdep]
  · intro o hfind hdep h1 h2
    simp [cancelOrder, hfind, hdep, h1, h2]
  · intro o r d s hfind hdep hpre hresp hok hdata hv hne hlow
    rcases hpre with hst | hst <;>
      simp [cancelOrder, hfind, hdep, hst, hresp, hok, hdata, hv, hne, hlow]
  · intro o hfind hdep hpre hfail
    rcases hpre with hst | hst <;>
    · rcases resp with m | ⟨rs, rd, rm⟩
      · simp [cancelOrder, hfind, hdep, hst, isErr]
      · rcases rd with _ | d
        · simp [cancelOrder, hfind, hdep, hst, isErr]
        · rcases hrs : rs
          · subst hrs
            simp [cancelOrder, hfind, hdep, hst, isErr]
          · subst hrs
            rcases hv : Obj.getVal d "status" with _ | v
            · simp [cancelOrder, hfind, hdep, hst, isErr, hv]
            · rcases v with s | n | b
              · have hcond : ¬(s ≠ "" ∧ jsToLower s = "cancel") := by
                  intro hc
                  simp [cancelOkResp, hv, hc.1, hc.2] at hfail
                simp [cancelOrder, hfind, hdep, hst, isErr, hv, hcond]
              · by_cases ht : (JsonVal.num n).truthy = true <;>
                  simp [cancelOrder, hfind, hdep, hst, isErr, hv, ht]
              · by_cases ht : (JsonVal.bool b).truthy = true <;>
                  simp [cancelOrder, hfind, hdep, hst, isErr, hv, ht]

/-- A provider cancel response whose nested status is "Cancel". -/
def respCancelOk : Except String AtlResp :=
  Except.ok { status := true, data := some [("status", JsonVal.str "Cancel")], message := none }

/-- Witness for C6 at the success case on a concrete pending order. -/
theorem C6_cancel_semantics_witness :
    cancelOrder [sampleOrder] "ORD-1-ABC" respCancelOk 7 =
      ⟨Except.ok { sampleOrder with
          status := "PAYMENT_CANCELLED",
          updatedAt := 7,
          depositDetails := some (Obj.setField (sampleOrder.depositDetails.getD []) "status"
            (JsonVal.str "cancel")) },
       some { sampleOrder with
          status := "PAYMENT_CANCELLED",
          updatedAt := 7,
          depositDetails := some (Obj.setField (sampleOrder.depositDetails.getD []) "status"
            (JsonVal.str "cancel")) },
       [CallKind.depositCancel]⟩ :=
  (C6_cancel_semantics [sampleOrder] "ORD-1-ABC" respCancelOk 7).2.2.2.1
    sampleOrder
    { status := true, data := some [("status", JsonVal.str "Cancel")], message := none }
    [("status", JsonVal.str "Cancel")] "Cancel"
    (by decide) (by decide) (Or.inl rfl) rfl rfl rfl (by decide) (by decide) (by decide)

/-- C4: contrary to the spec's retry row, an order in
`TRANSACTION_CREATION_FAILED` with no provider transaction id is NOT
retried — `reconcile` makes no provider call, writes nothing, and
returns the order unchanged, because the inner retry branch requires
status `PAYMENT_SUCCESSFUL_PROCESSING_ORDER`. -/
theorem C4_tcf_without_txid_not_retried (env : ProviderEnv) (now : Nat) (o : Order)
    (h1 : o.status = "TRANSACTION_CREATION_FAILED")
    (h2 : optStrTruthy o.atlanticTransactionId = false) :
    reconcile env now o = ⟨Except.ok o, none, []⟩ := by
  simp [reconcile, h1, h2]

/-- Witness for C4 at a concrete stuck order. -/
theorem C4_tcf_without_txid_not_retried_witness :
    reconcile envHappy 9 { sampleOrder with status := "TRANSACTION_CREATION_FAILED" } =
      ⟨Except.ok { sampleOrder with status := "TRANSACTION_CREATION_FAILED" }, none, []⟩ :=
  C4_tcf_without_txid_not_retried envHappy 9
    { sampleOrder with status := "TRANSACTION_CREATION_FAILED" } rfl rfl

/-- `applyTxCreate` never touches `depositDetails`. -/
theorem applyTxCreate_depositDetails (resp : Except String AtlResp) (u : Bool)
    (o : Order) : (applyTxCreate resp u o).depositDetails = o.depositDetails := by
  rcases resp with msg | ⟨rs, rd, rm⟩
  · rfl
  · rcases rd with _ | d
    · rfl
    · rcases rs
      · rfl
      · rcases hv : Obj.getVal d "status" with _ | v
        · simp [applyTxCreate, hv]
        · rcases v with s | n | b <;> simp [applyTxCreate, hv] <;> split <;> rfl

/-- `applyTxCreate` never touches `updatedAt`. -/
theorem applyTxCreate_updatedAt (resp : Except String AtlResp) (u : Bool)
    (o : Order) : (applyTxCreate resp u o).updatedAt = o.updatedAt := by
  rcases resp with msg | ⟨rs, rd, rm⟩
  · rfl
  · rcases rd with _ | d
    · rfl
    · rcases rs
      · rfl
      · rcases hv : Obj.getVal d "status" with _ | v
        · simp [applyTxCreate, hv]
        · rcases v with s | n | b <;> simp [applyTxCreate, hv] <;> split <;> rfl

/-- A stored order with pre-existing `transactionDetails`, about to take
the retry transaction-creation branch. -/
def ordMergeCounter : Order :=
  { sampleOrder with
    status := "PAYMENT_SUCCESSFUL_PROCESSING_ORDER",
    transactionDetails := some [("a", JsonVal.num 1)] }

/-- An environment whose transaction-creation response carries fields
disjoint from the stored `transactionDetails`. -/
def envMergeCounter : ProviderEnv :=
  { depositStatus := Except.error "unused"
    txCreate := Except.ok
      { status := true,
        data := some [("id", JsonVal.str "T9"), ("b", JsonVal.num 2)],
        message := none }
    txStatus := Except.error "unused" }

/-- C8 counterexample: on the transaction-creation path the provider
payload REPLACES the stored `transactionDetails` ({a:1} is lost) instead
of being merged into it, refuting the claim for creation responses. -/
theorem C8_counterexample_create_replaces :
    (resOrder (reconcile envMergeCounter 7 ordMergeCounter)).map Order.transactionDetails =
      some (some [("id", JsonVal.str "T9"), ("b", JsonVal.num 2)]) ∧
    (some [("id", JsonVal.str "T9"), ("b", JsonVal.num 2)] : Option Obj) ≠
      some (jsMerge [("a", JsonVal.num 1)] [("id", JsonVal.str "T9"), ("b", JsonVal.num 2)]) := by
  decide

/-- C8 (amended): when `reconcile` stores a provider *status-poll*
payload — deposit status into `depositDetails` or transaction status
into `transactionDetails` — the new fields are merged into the stored
object (same-named fields overwritten, others retained), and the spec's
example merge holds; transaction-creation responses instead replace
`transactionDetails` (see the counterexample). -/
theorem C8_poll_payloads_merged (env : ProviderEnv) (now : Nat) (o : Order)
    (r : AtlResp) (d : Obj) (s : String)
    (hok : r.status = true) (hdata : r.data = some d)
    (hs : Obj.getVal d "status" = some (JsonVal.str s)) :
    ((o.status = "PENDING_PAYMENT" ∨ o.status = "PAYMENT_PROCESSING") →
      env.depositStatus = Except.ok r →
       (resOrder (reconcile env now o)).map Order.depositDetails =
         some (some (jsMerge (o.depositDetails.getD []) d))) ∧
    ((o.status = "ORDER_PROCESSING" ∨ o.status = "PAYMENT_SUCCESSFUL_PROCESSING_ORDER" ∨
      o.status = "TRANSACTION_CREATION_FAILED") →
      optStrTruthy o.atlanticTransactionId = true →
      env.txStatus = Except.ok r →
       (resOrder (reconcile env now o)).map Order.transactionDetails =
         some (some (jsMerge (o.transactionDetails.getD []) d))) ∧
    jsMerge [("a", JsonVal.num 1), ("b", JsonVal.num 2)]
        [("b", JsonVal.num 3), ("c", JsonVal.num 4)] =
      [("a", JsonVal.num 1), ("b", JsonVal.num 3), ("c", JsonVal.num 4)] := by
  refine ⟨?_, ?_, by decide⟩
  · intro hst hdep
    by_cases hup : jsToUpper s = "SUCCESS"
    · rcases hst with h2 | h2 <;>
        simp [reconcile, h2, hdep, hok, hdata, hs, hup, resOrder, applyTxCreate_depositDetails]
    · by_cases he : jsToUpper s = "EXPIRED" <;>
      by_cases hf : jsToUpper s = "FAILED" <;>
      by_cases hc : jsToUpper s = "CANCEL" <;>
      by_cases hp : jsToUpper s = "PENDING" <;>
      rcases hst with h2 | h2 <;>
        simp [reconcile, h2, hdep, hok, hdata, hs, hup, he, hf, hc, hp, resOrder]
  · intro hst htr htx
    rcases hst with h2 | h2 | h2 <;>
      simp [reconcile, h2, htx, htr, hok, hdata, hs, resOrder]

/-- A deposit-status response sharing one key with the stored details. -/
def envMergePoll : ProviderEnv :=
  { depositStatus := Except.ok
      { status := true,
        data := some [("status", JsonVal.str "pending"), ("x", JsonVal.num 5)],
        message := none }
    txCreate := Except.error "unused"
    txStatus := Except.error "unused" }

/-- Witness for C8 (amended) on a concrete pending order. -/
theorem C8_poll_payloads_merged_witness :
    (resOrder (reconcile envMergePoll 4 sampleOrder)).map Order.depositDetails =
      some (some (jsMerge (sampleOrder.depositDetails.getD [])
        [("status", JsonVal.str "pending"), ("x", JsonVal.num 5)])) :=
  (C8_poll_payloads_merged envMergePoll 4 sampleOrder
      { status := true,
        data := some [("status", JsonVal.str "pending"), ("x", JsonVal.num 5)],
        message := none }
      [("status", JsonVal.str "pending"), ("x", JsonVal.num 5)] "pending"
      rfl rfl rfl).1 (Or.inl rfl) rfl

/-- A business-level deposit-status failure response. -/
def envBizFail : ProviderEnv :=
  { depositStatus := Except.ok { status := false, data := none, message := some "err" }
    txCreate := Except.error "unused"
    txStatus := Except.error "unused" }

/-- C9 counterexample: a deposit-status business-level failure issues a
provider call but persists nothing and leaves `updatedAt` unchanged,
refuting "updatedAt is updated regardless of outcome". -/
theorem C9_counterexample_deposit_business_failure :
    (reconcile envBizFail 99 sampleOrder).calls = [CallKind.depositStatus] ∧
    (reconcile envBizFail 99 sampleOrder).saved = none ∧
    (resOrder (reconcile envBizFail 99 sampleOrder)).map Order.updatedAt = some 1 ∧
    (1 : Nat) ≠ 99 := by
  decide

/-- C9 (amended): `updatedAt` is set to the current time and persisted
on every provider-contacting reconcile branch EXCEPT a deposit-status
business-level failure, which saves nothing and leaves the order
untouched; the transaction-status branch persists `updatedAt` even on
business-level failure, and the transaction-creation retry branch
persists it for every creation outcome. -/
theorem C9_updatedAt_update_semantics (env : ProviderEnv) (now : Nat) (o : Order)
    (r : AtlResp) :
    ((o.status = "PENDING_PAYMENT" ∨ o.status = "PAYMENT_PROCESSING") →
      env.depositStatus = Except.ok r → r.status = true →
      ∀ d s, r.data = some d → Obj.getVal d "status" = some (JsonVal.str s) →
      (reconcile env now o).saved = resOrder (reconcile env now o) ∧
      (resOrder (reconcile env now o)).map Order.updatedAt = some now) ∧
    ((o.status = "PENDING_PAYMENT" ∨ o.status = "PAYMENT_PROCESSING") →
      env.depositStatus = Except.ok r → (r.status = false ∨ r.data = none) →
      reconcile env now o = ⟨Except.ok o, none, [CallKind.depositStatus]⟩) ∧
    ((o.status = "ORDER_PROCESSING" ∨ o.status = "PAYMENT_SUCCESSFUL_PROCESSING_ORDER" ∨
      o.status = "TRANSACTION_CREATION_FAILED") →
      optStrTruthy o.atlanticTransactionId = true →
      env.txStatus = Except.ok r →
      (r.status = false ∨ r.data = none ∨
        (∃ d s, r.data = some d ∧ Obj.getVal d "status" = some (JsonVal.str s))) →
      (reconcile env now o).saved = resOrder (reconcile env now o) ∧
      (resOrder (reconcile env now o)).map Order.updatedAt = some now ∧
      (reconcile env now o).saved.isSome = true) ∧
    (o.status = "PAYMENT_SUCCESSFUL_PROCESSING_ORDER" →
      optStrTruthy o.atlanticTransactionId = false →
      (reconcile env now o).saved = resOrder (reconcile env now o) ∧
      (resOrder (reconcile env now o)).map Order.updatedAt = some now ∧
      (reconcile env now o).saved.isSome = true) := by
  refine ⟨?_, ?_, ?_, ?_⟩
  · intro hst hdep hok d s hdata hs
    by_cases hup : jsToUpper s = "SUCCESS"
    · rcases hst with h2 | h2 <;>
        simp [reconcile, h2, hdep, hok, hdata, hs, hup, resOrder, applyTxCreate_updatedAt]
    · by_cases he : jsToUpper s = "EXPIRED" <;>
      by_cases hf : jsToUpper s = "FAILED" <;>
      by_cases hc : jsToUpper s = "CANCEL" <;>
      by_cases hp : jsToUpper s = "PENDING" <;>
      rcases hst with h2 | h2 <;>
        simp [reconcile, h2, hdep, hok, hdata, hs, hup, he, hf, hc, hp, resOrder]
  · intro hst hdep hfail
    obtain ⟨rs, rd, rm⟩ := r
    rcases hfail with hf | hf <;> (dsimp only at hf; subst hf) <;>
      rcases hst with h2 | h2
    · rcases rd with _ | d <;> simp [reconcile, h2, hdep]
    · rcases rd with _ | d <;> simp [reconcile, h2, hdep]
    · simp [reconcile, h2, hdep]
    · simp [reconcile, h2, hdep]
  · intro hst htr htx hcase
    rcases hcase with hf | hf | ⟨d, s, hdata, hs⟩
    · obtain ⟨rs, rd, rm⟩ := r
      dsimp only at hf
      subst hf
      rcases rd with _ | d <;> rcases hst with h2 | h2 | h2 <;>
        simp [reconcile, h2, htr, htx, resOrder]
    · obtain ⟨rs, rd, rm⟩ := r
      dsimp only at hf
      subst hf
      rcases rs <;> rcases hst with h2 | h2 | h2 <;>
        simp [reconcile, h2, htr, htx, resOrder]
    · rcases hok : r.status <;> rcases hst with h2 | h2 | h2 <;>
        simp [reconcile, h2, htr, htx, hok, hdata, hs, resOrder]
  · intro hst htr
    simp [reconcile, hst, htr, resOrder, applyTxCreate_updatedAt]

/-- An order polling its transaction status. -/
def ordTxPoll : Order :=
  { sampleOrder with status := "ORDER_PROCESSING", atlanticTransactionId := some "T1" }

/-- A transaction-status business-level failure response. -/
def envTxBizFail : ProviderEnv :=
  { depositStatus := Except.error "unused"
    txCreate := Except.error "unused"
    txStatus := Except.ok { status := false, data := none, message := none } }

/-- Witness for C9 (amended): a transaction-status business failure
still persists the refreshed `updatedAt`. -/
theorem C9_updatedAt_update_semantics_witness :
    (reconcile envTxBizFail 42 ordTxPoll).saved = resOrder (reconcile envTxBizFail 42 ordTxPoll) ∧
    (resOrder (reconcile envTxBizFail 42 ordTxPoll)).map Order.updatedAt = some 42 ∧
    (reconcile envTxBizFail 42 ordTxPoll).saved.isSome = true :=
  (C9_updatedAt_update_semantics envTxBizFail 42 ordTxPoll
      { status := false, data := none, message := none }).2.2.1
    (Or.inl rfl) rfl rfl (Or.inl rfl)

end Website
